import Mathlib

/-!
Verification of the ynotv DVR recording-orchestration core.

The definitions below are a shallow embedding of the Rust sources under
src/packages/app/src-tauri/src/: the dvr_schedules / dvr_recordings tables
become lists of typed rows, SQL queries become filters plus a stable sort,
and the stateful managers become explicit state-passing functions.  SQLite
integer columns are modelled as Int (i64 arithmetic in the claims' range
never wraps), timestamps are passed in as explicit arguments wherever the
source calls chrono::Utc::now().
-/

namespace Ynotv

/-- Status of a scheduled recording, from models.rs ScheduleStatus. -/
inductive ScheduleStatus
  | scheduled
  | recording
  | completed
  | failed
  | canceled
deriving DecidableEq, Fintype

/-- Status of a recording file, from models.rs RecordingStatus.  The source
constructor named Partial is rendered here as truncated, because the source
name is a reserved word in Lean. -/
inductive RecordingStatus
  | recording
  | completed
  | failed
  | truncated
deriving DecidableEq

/-- A row of the dvr_schedules table, from models.rs Schedule. -/
structure Schedule where
  id : Int
  source_id : String
  channel_id : String
  channel_name : String
  program_title : String
  scheduled_start : Int
  scheduled_end : Int
  start_padding_sec : Int
  end_padding_sec : Int
  status : ScheduleStatus
  series_match_title : Option String
  recurrence : Option String
  created_at : Int
  started_at : Option Int
  stream_url : Option String
deriving DecidableEq

/-- Translation of models.rs Schedule::actual_start: the padded start time. -/
def Schedule.actual_start (s : Schedule) : Int :=
  s.scheduled_start - s.start_padding_sec

/-- Translation of models.rs Schedule::actual_end: the padded end time. -/
def Schedule.actual_end (s : Schedule) : Int :=
  s.scheduled_end + s.end_padding_sec

/-- A row of the dvr_recordings table, from models.rs Recording. -/
structure Recording where
  id : Int
  schedule_id : Option Int
  file_path : String
  filename : String
  channel_name : String
  program_title : String
  size_bytes : Option Int
  scheduled_start : Int
  scheduled_end : Int
  actual_start : Option Int
  actual_end : Option Int
  status : RecordingStatus
  error_message : Option String
  auto_delete_policy : String
  created_at : Int
  thumbnail_path : Option String
deriving DecidableEq

/-- A request to schedule a new recording, from models.rs ScheduleRequest. -/
structure ScheduleRequest where
  source_id : String
  channel_id : String
  channel_name : String
  program_title : String
  scheduled_start : Int
  scheduled_end : Int
  start_padding_sec : Int
  end_padding_sec : Int
  series_match_title : Option String
  recurrence : Option String
  stream_url : Option String
deriving DecidableEq

/-- The persistent state touched by the DVR core: the dvr_schedules and
dvr_recordings tables, the max_connections column of sourcesMeta (an
association list from source_id), and the AUTOINCREMENT counters that back
last_insert_rowid(). -/
structure DvrDb where
  schedules : List Schedule
  recordings : List Recording
  sources_meta : List (String × Option Int)
  next_schedule_id : Int
  next_recording_id : Int
deriving DecidableEq

/-- ORDER BY scheduled_start ASC, as the relation used by the stable sort. -/
def schedule_le (a b : Schedule) : Prop :=
  a.scheduled_start ≤ b.scheduled_start

instance : DecidableRel schedule_le := fun a b =>
  inferInstanceAs (Decidable (a.scheduled_start ≤ b.scheduled_start))

instance : IsTotal Schedule schedule_le :=
  ⟨fun a b => Int.le_total a.scheduled_start b.scheduled_start⟩

instance : IsTrans Schedule schedule_le :=
  ⟨fun _ _ _ => Int.le_trans⟩

/-- SQLite comparison on a nullable integer column: NULL sorts below every
integer. -/
def sql_null_le (a b : Option Int) : Bool :=
  match a, b with
  | none, _ => true
  | some _, none => false
  | some x, some y => decide (x ≤ y)

/-- ORDER BY actual_end DESC (database.rs get_completed_recordings): rows with
the larger actual_end come first, NULL last. -/
def rec_end_desc (a b : Recording) : Prop :=
  sql_null_le b.actual_end a.actual_end = true

instance : DecidableRel rec_end_desc := fun _a _b =>
  inferInstanceAs (Decidable (_ = true))

/-- Translation of database.rs DvrDatabase::add_schedule (lines 313-407): the
INSERT stores the request verbatim with status 'scheduled' and created_at set
to the current time, performs no validation of the time range, and the
returned id is last_insert_rowid(). -/
def add_schedule (db : DvrDb) (request : ScheduleRequest) (now : Int) :
    DvrDb × Int :=
  let row : Schedule :=
    { id := db.next_schedule_id
      source_id := request.source_id
      channel_id := request.channel_id
      channel_name := request.channel_name
      program_title := request.program_title
      scheduled_start := request.scheduled_start
      scheduled_end := request.scheduled_end
      start_padding_sec := request.start_padding_sec
      end_padding_sec := request.end_padding_sec
      status := ScheduleStatus.scheduled
      series_match_title := request.series_match_title
      recurrence := request.recurrence
      created_at := now
      started_at := none
      stream_url := request.stream_url }
  ({ db with
      schedules := db.schedules ++ [row]
      next_schedule_id := db.next_schedule_id + 1 },
    db.next_schedule_id)

/-- The WHERE clause of the query in database.rs get_scheduled_recordings
(lines 242-253), with the bound parameters substituted: ?1 is
now + window_seconds, ?2 is now - window_seconds, ?3 is
now - grace_period_seconds. -/
def due_row (now window_seconds grace_period_seconds : Int) (s : Schedule) :
    Bool :=
  let upcoming := now + window_seconds
  let window_start := now - window_seconds
  let grace_start := now - grace_period_seconds
  decide (s.status = ScheduleStatus.scheduled ∧
    ((s.scheduled_start - s.start_padding_sec ≤ upcoming ∧
        s.scheduled_start - s.start_padding_sec ≥ window_start) ∨
      (s.scheduled_start ≤ upcoming ∧ s.scheduled_start ≥ grace_start ∧
        s.started_at = none)))

/-- Translation of database.rs DvrDatabase::get_scheduled_recordings
(lines 197-299): SELECT with the due_row WHERE clause,
ORDER BY scheduled_start ASC. -/
def get_scheduled_recordings (db : DvrDb)
    (now window_seconds grace_period_seconds : Int) : List Schedule :=
  List.insertionSort schedule_le
    (db.schedules.filter (due_row now window_seconds grace_period_seconds))

/-- Translation of database.rs DvrDatabase::update_schedule_status
(lines 410-427): an unguarded UPDATE of the status; transitioning to
Recording also sets started_at to the current time. -/
def update_schedule_status (db : DvrDb) (id : Int) (status : ScheduleStatus)
    (now : Int) : DvrDb :=
  { db with
      schedules := db.schedules.map (fun s =>
        if s.id = id then
          if status = ScheduleStatus.recording then
            { s with status := status, started_at := some now }
          else
            { s with status := status }
        else s) }

/-- Translation of database.rs DvrDatabase::cancel_schedule (lines 430-440):
UPDATE ... SET status = 'canceled' WHERE id = ?1 AND status = 'scheduled'. -/
def cancel_schedule (db : DvrDb) (id : Int) : DvrDb :=
  { db with
      schedules := db.schedules.map (fun s =>
        if s.id = id ∧ s.status = ScheduleStatus.scheduled then
          { s with status := ScheduleStatus.canceled }
        else s) }

/-- Translation of database.rs DvrDatabase::check_conflicts (lines 762-814):
the max_connections lookup on sourcesMeta, and the overlap query
WHERE source_id = ?1 AND status IN ('scheduled', 'recording')
AND NOT (scheduled_end <= ?2 OR scheduled_start >= ?3). -/
def check_conflicts (db : DvrDb) (source_id : String) (start end_ : Int) :
    List Schedule × Option Int :=
  let max_connections := (db.sources_meta.lookup source_id).join
  let conflicts := db.schedules.filter (fun s =>
    decide (s.source_id = source_id ∧
      (s.status = ScheduleStatus.scheduled ∨
        s.status = ScheduleStatus.recording) ∧
      ¬(s.scheduled_end ≤ start ∨ s.scheduled_start ≥ end_)))
  (conflicts, max_connections)

/-- Translation of database.rs DvrDatabase::add_recording (lines 511-545):
INSERT with status 'recording', actual_start set to the current time, the
column defaults size_bytes = 0 and auto_delete_policy = 'space_needed', and
last_insert_rowid() returned. -/
def add_recording (db : DvrDb) (schedule_id : Int)
    (file_path filename channel_name program_title : String)
    (scheduled_start scheduled_end : Int) (now : Int) : DvrDb × Int :=
  let row : Recording :=
    { id := db.next_recording_id
      schedule_id := some schedule_id
      file_path := file_path
      filename := filename
      channel_name := channel_name
      program_title := program_title
      size_bytes := some 0
      scheduled_start := scheduled_start
      scheduled_end := scheduled_end
      actual_start := some now
      actual_end := none
      status := RecordingStatus.recording
      error_message := none
      auto_delete_policy := "space_needed"
      created_at := now
      thumbnail_path := none }
  ({ db with
      recordings := db.recordings ++ [row]
      next_recording_id := db.next_recording_id + 1 },
    db.next_recording_id)

/-- Translation of database.rs DvrDatabase::delete_recording (lines 678-696):
reads file_path and thumbnail_path of the row, deletes it, and returns the
paths for filesystem deletion by the caller. -/
def delete_recording (db : DvrDb) (id : Int) :
    DvrDb × Option (String × Option String) :=
  let found := db.recordings.find? (fun r => decide (r.id = id))
  ({ db with recordings := db.recordings.filter (fun r => decide (¬r.id = id)) },
    found.map (fun r => (r.file_path, r.thumbnail_path)))

/-- Translation of database.rs DvrDatabase::get_completed_recordings
(lines 638-675): SELECT * WHERE status IN ('completed', 'partial')
ORDER BY actual_end DESC. -/
def get_completed_recordings (db : DvrDb) : List Recording :=
  List.insertionSort rec_end_desc
    (db.recordings.filter (fun r =>
      decide (r.status = RecordingStatus.completed ∨
        r.status = RecordingStatus.truncated)))

/-- The set of rows deleted by cleanup.rs emergency_cleanup (lines 261-290):
the first half of get_completed_recordings, i.e. of the list ordered by
actual_end DESC. -/
def emergency_victims (db : DvrDb) : List Recording :=
  let recordings := get_completed_recordings db
  recordings.take (recordings.length / 2)

/-- Translation of cleanup.rs emergency_cleanup (lines 261-290): deletes half
of the completed recordings in the order produced by
get_completed_recordings, ignoring the auto_delete_policy; file deletion is
assumed to succeed, as the source merely skips rows whose deletion fails. -/
def emergency_cleanup (db : DvrDb) : DvrDb × Nat :=
  let victims := emergency_victims db
  (victims.foldl (fun acc r => (delete_recording acc r.id).1) db,
    victims.length)

/-- The deletion loop of cleanup.rs enforce_quota (lines 223-255): walk the
rows of get_completed_recordings, stop once bytes_freed has reached
bytes_to_free, skip rows whose policy is 'never', delete the rest and add
their size_bytes (0 when NULL) to bytes_freed.  File deletion and existence
are assumed, as in emergency_cleanup. -/
def quota_pass (db : DvrDb) (rows : List Recording)
    (bytes_to_free bytes_freed : Int) : DvrDb × Nat :=
  match rows with
  | [] => (db, 0)
  | r :: rest =>
    if bytes_to_free ≤ bytes_freed then (db, 0)
    else if r.auto_delete_policy = "never" then
      quota_pass db rest bytes_to_free bytes_freed
    else
      let freed := bytes_freed + r.size_bytes.getD 0
      let next := quota_pass (delete_recording db r.id).1 rest bytes_to_free freed
      (next.1, next.2 + 1)

/-- Translation of cleanup.rs enforce_quota (lines 201-258), with the byte
threshold already computed as an integer: the source derives target_bytes
from the DiskInfo floats as total_bytes * target_percent / 100, returns
immediately when current_used is at or under it, and otherwise frees
current_used - target_bytes bytes via the quota_pass loop. -/
def enforce_quota (db : DvrDb) (current_used target_bytes : Int) :
    DvrDb × Nat :=
  if current_used ≤ target_bytes then (db, 0)
  else quota_pass db (get_completed_recordings db)
    (current_used - target_bytes) 0

/-- Translation of the duration computation in recorder.rs record (line 173):
duration_secs = schedule.actual_end() - schedule.actual_start(). -/
def capture_duration_secs (schedule : Schedule) : Int :=
  schedule.actual_end - schedule.actual_start

/-- Translation of the FFmpeg command construction in recorder.rs record
(lines 199-217): the HLS-specific input flags, then the fixed argument list
with the stream URL, stream-copy flag, computed duration and output path. -/
def ffmpeg_args (is_hls : Bool) (stream_url : String) (duration_secs : Int)
    (output_path : String) : List String :=
  (if is_hls then ["-live_start_index", "-1", "-http_persistent", "0"]
    else []) ++
  ["-timeout", "30000000", "-i", stream_url, "-c", "copy",
    "-t", toString duration_secs, "-fflags", "+flush_packets", "-y",
    output_path]

/-- The argument list recorder.rs record passes to the capture engine for a
schedule: ffmpeg_args applied to the duration computed from the schedule. -/
def record_ffmpeg_args (schedule : Schedule) (is_hls : Bool)
    (stream_url output_path : String) : List String :=
  ffmpeg_args is_hls stream_url (capture_duration_secs schedule) output_path

/-- An entry of the active-recordings table, from recorder.rs
RecordingHandle.  The process field models Option of the owned child handle;
cancel_flag models the value carried by the watch cancellation channel; the
start_time Instant is omitted as no claim depends on wall-clock time. -/
structure RecordingHandle where
  process : Option Unit
  recording_id : Int
  schedule : Schedule
  cancel_flag : Bool
deriving DecidableEq

/-- The mutex-guarded active_recordings map of recorder.rs RecordingManager,
modelled as an association list keyed by schedule id. -/
def ActiveMap : Type := List (Int × RecordingHandle)

instance : DecidableEq ActiveMap :=
  inferInstanceAs (DecidableEq (List (Int × RecordingHandle)))

/-- Reading the handle stored under a key of the active-recordings map
(HashMap::get). -/
def map_get (m : ActiveMap) (schedule_id : Int) : Option RecordingHandle :=
  match m with
  | [] => none
  | p :: rest => if p.1 = schedule_id then some p.2 else map_get rest schedule_id

/-- Mutating the handle stored under a key of the active-recordings map
(the effect of a HashMap::get_mut followed by a field write). -/
def upd_entry (f : RecordingHandle → RecordingHandle) (schedule_id : Int)
    (m : ActiveMap) : ActiveMap :=
  m.map (fun p => if p.1 = schedule_id then (p.1, f p.2) else p)

/-- Setting the cancellation flag of a handle (cancel_tx.send(true)). -/
def with_cancel (h : RecordingHandle) : RecordingHandle :=
  { h with cancel_flag := true }

/-- Clearing the owned process of a handle (h.process.take()). -/
def without_process (h : RecordingHandle) : RecordingHandle :=
  { h with process := none }

/-- Sending true on the cancellation channel of the handle registered under
the given schedule id (recorder.rs stop_recording, cancel_tx.send(true)). -/
def send_cancel (m : ActiveMap) (schedule_id : Int) : ActiveMap :=
  upd_entry with_cancel schedule_id m

/-- Taking the process handle out of the map entry while the lock is held
(recorder.rs stop_recording: get_mut followed by process.take()). -/
def take_process (m : ActiveMap) (schedule_id : Int) :
    ActiveMap × Option Unit :=
  match map_get m schedule_id with
  | none => (m, none)
  | some h => (upd_entry without_process schedule_id m, h.process)

/-- Translation of recorder.rs RecordingManager::stop_recording
(lines 455-498).  The returned Nat counts direct process kills, so a
double-kill fault would show up as a count above one across repeated calls.
The function mirrors the source control flow: look up the handle, and when
present send the cancellation signal, then take-and-clear the process handle
and kill it only if it was still owned; every path returns Ok. -/
def stop_recording (m : ActiveMap) (schedule_id : Int) :
    Except String (ActiveMap × Nat) :=
  match map_get m schedule_id with
  | none => Except.ok (m, 0)
  | some _ =>
    let m1 := send_cancel m schedule_id
    let taken := take_process m1 schedule_id
    Except.ok (taken.1, match taken.2 with | some _ => 1 | none => 0)

/-- Composition of scheduler.rs start_recording (lines 172-208) with
recorder.rs record (lines 102-225) in the run where cmd.spawn() fails: the
scheduler first sets the schedule status to Recording, record inserts the
recording row before the spawn attempt (database.rs add_recording), the
spawn error propagates out of record without touching that row, and the
scheduler's completion callback then sets the schedule status to Failed. -/
def start_recording_spawn_fail (db : DvrDb) (sched : Schedule)
    (file_path filename : String) (now : Int) : DvrDb :=
  let db1 := update_schedule_status db sched.id ScheduleStatus.recording now
  let db2 := (add_recording db1 sched.id file_path filename
    sched.channel_name sched.program_title sched.scheduled_start
    sched.scheduled_end now).1
  update_schedule_status db2 sched.id ScheduleStatus.failed now

/-- Phase of the per-schedule capture job between dispatch and the completion
callback.  running: the process is alive and wait_for_recording is pending.
killed: the process has been force-killed (recorder.rs stop_recording or
stop_all_recordings) but record's completion path has not run yet. -/
inductive JobPhase
  | running
  | killed
deriving DecidableEq, Fintype

/-- The per-schedule state observed by the schedule-store operations: the
persisted status plus the in-flight job, if any. -/
structure SysState where
  status : ScheduleStatus
  job : Option JobPhase
deriving DecidableEq, Fintype

/-- The schedule-store operations that mutate a schedule's status, as they
occur in the source.  dispatch: scheduler.rs start_recording on a due
schedule.  cancelCmd: the cancel_recording command of lib.rs (lines 754-778),
which stops the capture process when the status is Recording and then runs
cancel_schedule.  stopAll: recorder.rs stop_all_recordings (lines 501-521),
which kills the process and sets the status to Canceled.  finishOk /
finishErr: the completion of record (recorder.rs) together with the callback
in scheduler.rs start_recording that marks a failed run Failed. -/
inductive DvrEvent
  | dispatch
  | cancelCmd
  | stopAll
  | finishOk
  | finishErr
deriving DecidableEq, Fintype

/-- Force-killing the job's process: a running job becomes killed; a job
whose process handle was already taken is left as is (take-and-clear). -/
def kill_job : Option JobPhase → Option JobPhase
  | some JobPhase.running => some JobPhase.killed
  | j => j

/-- One schedule-store operation.  Each branch follows the corresponding
source path; an operation that finds nothing to do leaves the state
unchanged (e.g. cancel_schedule's WHERE status = 'scheduled' guard, or
stop_all_recordings on an empty active table). -/
def dvr_step (s : SysState) (e : DvrEvent) : SysState :=
  match e with
  | DvrEvent.dispatch =>
    if s.status = ScheduleStatus.scheduled then
      { status := ScheduleStatus.recording, job := some JobPhase.running }
    else s
  | DvrEvent.cancelCmd =>
    { status :=
        if s.status = ScheduleStatus.scheduled then ScheduleStatus.canceled
        else s.status
      job :=
        if s.status = ScheduleStatus.recording then kill_job s.job
        else s.job }
  | DvrEvent.stopAll =>
    match s.job with
    | some _ =>
      { status := ScheduleStatus.canceled, job := some JobPhase.killed }
    | none => s
  | DvrEvent.finishOk =>
    match s.job with
    | some JobPhase.running =>
      { status := ScheduleStatus.completed, job := none }
    | some JobPhase.killed =>
      { status := ScheduleStatus.failed, job := none }
    | none => s
  | DvrEvent.finishErr =>
    match s.job with
    | some _ => { status := ScheduleStatus.failed, job := none }
    | none => s

/-- The state of a freshly accepted schedule: persisted as Scheduled, no
capture job. -/
def dvr_init : SysState :=
  { status := ScheduleStatus.scheduled, job := none }

/-- Running a sequence of schedule-store operations from the initial state. -/
def dvr_run (es : List DvrEvent) : SysState :=
  es.foldl dvr_step dvr_init

/-- Reachability invariant of the composed system: a running job means the
persisted status is Recording, and a killed-but-unfinished job means the
status is Recording or Canceled (the latter after stop_all_recordings). -/
def dvr_inv (s : SysState) : Prop :=
  (s.job = some JobPhase.running → s.status = ScheduleStatus.recording) ∧
  (s.job = some JobPhase.killed →
    s.status = ScheduleStatus.recording ∨
    s.status = ScheduleStatus.canceled)

instance (s : SysState) : Decidable (dvr_inv s) :=
  inferInstanceAs (Decidable (And _ _))

/-- The set of status transitions the specification claims: only
Scheduled to Recording or Canceled, and Recording to Completed or Failed
(the claimed Recording-to-Partial case is not expressible: Partial is not a
ScheduleStatus constructor in models.rs). -/
def claim_transition (a b : ScheduleStatus) : Prop :=
  (a = ScheduleStatus.scheduled ∧
    (b = ScheduleStatus.recording ∨ b = ScheduleStatus.canceled)) ∨
  (a = ScheduleStatus.recording ∧
    (b = ScheduleStatus.completed ∨ b = ScheduleStatus.failed))

instance (a b : ScheduleStatus) : Decidable (claim_transition a b) :=
  inferInstanceAs (Decidable (Or _ _))

/-- The status transitions the code actually performs: the claimed set, plus
Recording to Canceled (stop_all_recordings on an in-flight job) and Canceled
to Failed (the completion callback of a job killed by stop_all_recordings). -/
def code_transition (a b : ScheduleStatus) : Prop :=
  claim_transition a b ∨
  (a = ScheduleStatus.recording ∧ b = ScheduleStatus.canceled) ∨
  (a = ScheduleStatus.canceled ∧ b = ScheduleStatus.failed)

instance (a b : ScheduleStatus) : Decidable (code_transition a b) :=
  inferInstanceAs (Decidable (Or _ _))

/-- The due-predicate exactly as the claim about getDueSchedules states it:
padded start within the lookahead window, or a never-started schedule whose
raw start lies in the closed interval from now - grace to now while the
status is still Scheduled. -/
def claim_due (now window grace : Int) (s : Schedule) : Prop :=
  (now - window ≤ s.actual_start ∧ s.actual_start ≤ now + window) ∨
  (s.started_at = none ∧ now - grace ≤ s.scheduled_start ∧
    s.scheduled_start ≤ now ∧ s.status = ScheduleStatus.scheduled)

instance (now window grace : Int) (s : Schedule) :
    Decidable (claim_due now window grace s) :=
  inferInstanceAs (Decidable (Or _ _))

/-- The due-predicate the query actually implements: status Scheduled is
required on both branches, and the missed-recovery branch accepts raw starts
up to now + window rather than now. -/
def code_due (now window grace : Int) (s : Schedule) : Prop :=
  s.status = ScheduleStatus.scheduled ∧
  ((now - window ≤ s.actual_start ∧ s.actual_start ≤ now + window) ∨
    (s.started_at = none ∧ now - grace ≤ s.scheduled_start ∧
      s.scheduled_start ≤ now + window))

instance (now window grace : Int) (s : Schedule) :
    Decidable (code_due now window grace s) :=
  inferInstanceAs (Decidable (And _ _))

/-- Fixture: a schedule row with the fields no claim depends on held fixed. -/
def mk_schedule (id : Int) (scheduled_start scheduled_end : Int)
    (start_padding_sec end_padding_sec : Int) (status : ScheduleStatus)
    (started_at : Option Int) : Schedule :=
  { id := id
    source_id := "src1"
    channel_id := "ch1"
    channel_name := "Channel One"
    program_title := "Show"
    scheduled_start := scheduled_start
    scheduled_end := scheduled_end
    start_padding_sec := start_padding_sec
    end_padding_sec := end_padding_sec
    status := status
    series_match_title := none
    recurrence := none
    created_at := 0
    started_at := started_at
    stream_url := none }

/-- Fixture: a recording row with the fields no claim depends on held
fixed. -/
def mk_recording (id : Int) (actual_end : Option Int) (size_bytes : Option Int)
    (auto_delete_policy : String) (status : RecordingStatus) : Recording :=
  { id := id
    schedule_id := some id
    file_path := toString id ++ ".ts"
    filename := toString id ++ ".ts"
    channel_name := "Channel One"
    program_title := "Show"
    size_bytes := size_bytes
    scheduled_start := 0
    scheduled_end := 1
    actual_start := some 0
    actual_end := actual_end
    status := status
    error_message := none
    auto_delete_policy := auto_delete_policy
    created_at := 0
    thumbnail_path := none }

/-- Fixture: the empty database; AUTOINCREMENT row ids start at 1. -/
def empty_db : DvrDb :=
  { schedules := []
    recordings := []
    sources_meta := []
    next_schedule_id := 1
    next_recording_id := 1 }

/-- Fixture: the source id shared by the concrete examples. -/
def src1 : String := "src1"

/-- Fixture: the default auto_delete_policy value. -/
def policy_space : String := "space_needed"

/-- Fixture: the retention tag that exempts a recording from eviction. -/
def policy_never : String := "never"

/-- Fixture: a request whose scheduled_end equals its scheduled_start. -/
def bad_request : ScheduleRequest :=
  { source_id := "src1"
    channel_id := "ch1"
    channel_name := "Channel One"
    program_title := "Show"
    scheduled_start := 100
    scheduled_end := 100
    start_padding_sec := 60
    end_padding_sec := 300
    series_match_title := none
    recurrence := none
    stream_url := none }

/-- Fixture: a never-started Scheduled row whose raw start 1050 is past
now = 1000 but inside now + window, with padding large enough to push its
padded start 850 out of the lookahead window. -/
def s_grace : Schedule :=
  mk_schedule 1 1050 1100 200 300 ScheduleStatus.scheduled none

/-- Fixture: a database holding only s_grace. -/
def db_grace : DvrDb := { empty_db with schedules := [s_grace] }

/-- Fixture: the specification's example schedule with scheduled_start 1040
and start padding 60 (padded start 980). -/
def s_1040 : Schedule :=
  mk_schedule 2 1040 1100 60 300 ScheduleStatus.scheduled none

/-- Fixture: the specification's example schedule with scheduled_start 1200
and start padding 60 (padded start 1140). -/
def s_1200 : Schedule :=
  mk_schedule 3 1200 1300 60 300 ScheduleStatus.scheduled none

/-- Fixture: a database holding only s_1040. -/
def db_1040 : DvrDb := { empty_db with schedules := [s_1040] }

/-- Fixture: a Scheduled row occupying the interval from 100 to 200 on
source src1. -/
def s_overlap : Schedule :=
  mk_schedule 4 100 200 60 300 ScheduleStatus.scheduled none

/-- Fixture: a database holding s_overlap, with src1 carrying a
max_connections of 1. -/
def db_conf : DvrDb :=
  { empty_db with
      schedules := [s_overlap]
      sources_meta := [(src1, some 1)] }

/-- Fixture: ten completed recordings with ids 1 to 10 and actual_end 100 to
1000, ids 3 and 8 tagged never. -/
def db_emergency : DvrDb :=
  { empty_db with
      recordings :=
        [mk_recording 1 (some 100) (some 50) policy_space
            RecordingStatus.completed,
          mk_recording 2 (some 200) (some 50) policy_space
            RecordingStatus.completed,
          mk_recording 3 (some 300) (some 50) policy_never
            RecordingStatus.completed,
          mk_recording 4 (some 400) (some 50) policy_space
            RecordingStatus.completed,
          mk_recording 5 (some 500) (some 50) policy_space
            RecordingStatus.completed,
          mk_recording 6 (some 600) (some 50) policy_space
            RecordingStatus.completed,
          mk_recording 7 (some 700) (some 50) policy_space
            RecordingStatus.completed,
          mk_recording 8 (some 800) (some 50) policy_never
            RecordingStatus.completed,
          mk_recording 9 (some 900) (some 50) policy_space
            RecordingStatus.completed,
          mk_recording 10 (some 1000) (some 50) policy_space
            RecordingStatus.completed] }

/-- Fixture: three eligible completed recordings, ids 1 to 3, actual_end 100
to 300, each of size 60 - more than the 50-byte gap between a usage of 850
and a target of 800. -/
def db_quota : DvrDb :=
  { empty_db with
      recordings :=
        [mk_recording 1 (some 100) (some 60) policy_space
            RecordingStatus.completed,
          mk_recording 2 (some 200) (some 60) policy_space
            RecordingStatus.completed,
          mk_recording 3 (some 300) (some 60) policy_space
            RecordingStatus.completed] }

/-- Fixture: a Scheduled row used for the spawn-failure scenario. -/
def s_c7 : Schedule :=
  mk_schedule 7 1000 1060 60 300 ScheduleStatus.scheduled none

/-- Fixture: a database holding only s_c7. -/
def db_c7 : DvrDb := { empty_db with schedules := [s_c7] }

/-- Fixture: the output path used in the spawn-failure scenario. -/
def c7_file : String := "7.ts"

/-- Fixture: the schedule row s_c7 after the failed spawn run at time 950. -/
def c7_after : Schedule :=
  { s_c7 with status := ScheduleStatus.failed, started_at := some 950 }

/-- Fixture: an active handle whose process is still owned. -/
def handle_run : RecordingHandle :=
  { process := some ()
    recording_id := 11
    schedule := mk_schedule 5 0 60 0 0 ScheduleStatus.recording (some 0)
    cancel_flag := false }

/-- Fixture: an active-recordings map with one live job under key 5. -/
def map_run : ActiveMap := [(5, handle_run)]

/-- Fixture: map_run after a first stop_recording call: cancellation
signalled and the process handle taken. -/
def map_stopped : ActiveMap :=
  [(5, { handle_run with process := none, cancel_flag := true })]

/-- Fixture: the end-to-end example schedule of the specification, with a
60-second programme and default paddings, as a function of its start. -/
def c9_sched (t : Int) : Schedule :=
  mk_schedule 9 t (t + 60) 60 300 ScheduleStatus.scheduled none

/-- The composite update a first stop_recording call applies to the handle
under its key: cancellation flag raised, process handle taken. -/
def scrub (h : RecordingHandle) : RecordingHandle :=
  without_process (with_cancel h)

/-- The recording row that add_recording inserts during a
start_recording_spawn_fail run. -/
def spawn_fail_row (db : DvrDb) (sched : Schedule) (fp fn : String)
    (now : Int) : Recording :=
  { id := db.next_recording_id
    schedule_id := some sched.id
    file_path := fp
    filename := fn
    channel_name := sched.channel_name
    program_title := sched.program_title
    size_bytes := some 0
    scheduled_start := sched.scheduled_start
    scheduled_end := sched.scheduled_end
    actual_start := some now
    actual_end := none
    status := RecordingStatus.recording
    error_message := none
    auto_delete_policy := "space_needed"
    created_at := now
    thumbnail_path := none }

lemma due_row_iff_code_due (now w g : Int) (s : Schedule) :
    due_row now w g s = true ↔ code_due now w g s := by
  simp only [due_row, code_due, Schedule.actual_start, decide_eq_true_eq,
    ge_iff_le]
  tauto

lemma mem_get_scheduled (db : DvrDb) (now w g : Int) (s : Schedule) :
    s ∈ get_scheduled_recordings db now w g ↔
      s ∈ db.schedules ∧ code_due now w g s := by
  simp [get_scheduled_recordings, List.mem_insertionSort, List.mem_filter,
    due_row_iff_code_due]

lemma dvr_inv_step :
    ∀ (s : SysState) (e : DvrEvent), dvr_inv s → dvr_inv (dvr_step s e) := by
  decide

lemma dvr_step_transition :
    ∀ (s : SysState) (e : DvrEvent), dvr_inv s →
      (dvr_step s e).status ≠ s.status →
      code_transition s.status (dvr_step s e).status := by
  decide

lemma dvr_inv_foldl :
    ∀ (es : List DvrEvent) (s : SysState), dvr_inv s →
      dvr_inv (es.foldl dvr_step s) := by
  intro es
  induction es with
  | nil => exact fun s hs => hs
  | cons e rest ih => exact fun s hs => ih (dvr_step s e) (dvr_inv_step s e hs)

lemma dvr_inv_run (es : List DvrEvent) : dvr_inv (dvr_run es) :=
  dvr_inv_foldl es dvr_init (by decide)

lemma update_status_id_mem (db : DvrDb) (id : Int) (st : ScheduleStatus)
    (now : Int) (s : Schedule)
    (hs : s ∈ (update_schedule_status db id st now).schedules)
    (hid : s.id = id) : s.status = st := by
  simp only [update_schedule_status, List.mem_map] at hs
  obtain ⟨t, _, rfl⟩ := hs
  by_cases h1 : t.id = id
  · by_cases h2 : st = ScheduleStatus.recording <;> simp [h1, h2]
  · rw [if_neg h1] at hid
    exact absurd hid h1

/-- Claim C1, counterexample: a request with scheduled_end equal to
scheduled_start is not rejected by add_schedule; it is persisted with status
Scheduled and an id is returned. -/
theorem add_schedule_accepts_bad_range :
    bad_request.scheduled_end ≤ bad_request.scheduled_start ∧
    (add_schedule empty_db bad_request 77).2 = 1 ∧
    (add_schedule empty_db bad_request 77).1.schedules.map Schedule.status =
      [ScheduleStatus.scheduled] := by
  decide

/-- Claim C1, amended: add_schedule performs no validation of the time
range.  For every request - bad time range included - it persists exactly
one new schedule carrying the request's fields with status Scheduled and
createdAt equal to the current time, touches no recording row, and returns
the new row's id. -/
theorem add_schedule_persists_always :
    ∀ (db : DvrDb) (request : ScheduleRequest) (now : Int),
      (add_schedule db request now).2 = db.next_schedule_id ∧
      (add_schedule db request now).1.schedules =
        db.schedules ++
          [{ id := db.next_schedule_id
             source_id := request.source_id
             channel_id := request.channel_id
             channel_name := request.channel_name
             program_title := request.program_title
             scheduled_start := request.scheduled_start
             scheduled_end := request.scheduled_end
             start_padding_sec := request.start_padding_sec
             end_padding_sec := request.end_padding_sec
             status := ScheduleStatus.scheduled
             series_match_title := request.series_match_title
             recurrence := request.recurrence
             created_at := now
             started_at := none
             stream_url := request.stream_url }] ∧
      (add_schedule db request now).1.recordings = db.recordings :=
  fun _ _ _ => ⟨rfl, rfl, rfl⟩

/-- Claim C2: with ten completed recordings with actual_end 100 to 1000, the
emergency pass deletes exactly the five NEWEST recordings (ids 10 to 6),
not the five oldest as the specification and the source's own comments
state: get_completed_recordings orders actual_end DESC and
emergency_cleanup takes from the front of that list. -/
theorem emergency_cleanup_deletes_newest_half :
    (get_completed_recordings db_emergency).map Recording.id =
      [10, 9, 8, 7, 6, 5, 4, 3, 2, 1] ∧
    (emergency_victims db_emergency).map Recording.id = [10, 9, 8, 7, 6] ∧
    (emergency_cleanup db_emergency).1.recordings.map Recording.id =
      [1, 2, 3, 4, 5] ∧
    (emergency_cleanup db_emergency).2 = 5 := by
  decide

/-- Claim C3: with three eligible recordings with actual_end 100, 200, 300,
each large enough to close the 50-byte gap alone, the quota pass deletes
exactly one recording - but the NEWEST one (id 3), not the oldest as the
specification and the source's own comment state, because it walks the
actual_end DESC list from the front. -/
theorem enforce_quota_deletes_newest_first :
    (get_completed_recordings db_quota).map Recording.id = [3, 2, 1] ∧
    (enforce_quota db_quota 850 800).1.recordings.map Recording.id = [1, 2] ∧
    (enforce_quota db_quota 850 800).2 = 1 := by
  decide

/-- Claim C4, counterexample: after dispatching a schedule, a
stop_all_recordings call moves its status from Recording to Canceled - a
reachable transition outside the claimed set. -/
theorem status_transition_recording_to_canceled :
    (dvr_run [DvrEvent.dispatch]).status = ScheduleStatus.recording ∧
    (dvr_step (dvr_run [DvrEvent.dispatch]) DvrEvent.stopAll).status =
      ScheduleStatus.canceled ∧
    ¬claim_transition ScheduleStatus.recording ScheduleStatus.canceled := by
  decide

/-- Claim C4, amended: over every sequence of schedule-store operations the
status transitions follow Scheduled to Recording or Canceled, Recording to
Completed, Failed or Canceled (the latter via stopAll), and Canceled to
Failed (the completion callback of a job killed by stopAll); in particular
Completed and Failed are final, but Canceled is not. -/
theorem status_transitions_amended :
    ∀ (es : List DvrEvent) (e : DvrEvent),
      (dvr_step (dvr_run es) e).status ≠ (dvr_run es).status →
      code_transition (dvr_run es).status (dvr_step (dvr_run es) e).status :=
  fun es e h => dvr_step_transition (dvr_run es) e (dvr_inv_run es) h

/-- Claim C4, witness: the dispatch step out of the initial state is a
transition of the amended set. -/
theorem status_transitions_amended_witness :
    code_transition (dvr_run []).status
      (dvr_step (dvr_run []) DvrEvent.dispatch).status :=
  status_transitions_amended [] DvrEvent.dispatch (by decide)

/-- Claim C5, counterexample: with now 1000, window 60, grace 300, the
schedule s_grace (scheduled_start 1050, start padding 200, never started) is
returned by the query although the claim's due-predicate rejects it: its
padded start 850 is outside the window and its raw start 1050 is past now. -/
theorem get_due_returns_non_due_schedule :
    s_grace ∈ get_scheduled_recordings db_grace 1000 60 300 ∧
    ¬claim_due 1000 60 300 s_grace := by
  decide

/-- Claim C5, amended: get_scheduled_recordings returns, sorted by ascending
scheduled_start, exactly the stored schedules with status Scheduled whose
padded start lies in the window from now - lookahead to now + lookahead, or
which never started and whose raw scheduled_start lies in the interval from
now - grace to now + lookahead (the upper bound is now + lookahead, not
now).  The specification's concrete examples hold: with now 1000, window 60,
grace 300, the schedule with start 1040 and padding 60 is due and the one
with start 1200 is not. -/
theorem get_due_characterization_amended :
    (∀ (db : DvrDb) (now w g : Int) (s : Schedule),
      s ∈ get_scheduled_recordings db now w g ↔
        s ∈ db.schedules ∧ code_due now w g s) ∧
    (∀ (db : DvrDb) (now w g : Int),
      List.Sorted schedule_le (get_scheduled_recordings db now w g)) ∧
    code_due 1000 60 300 s_1040 ∧ ¬code_due 1000 60 300 s_1200 :=
  ⟨fun db now w g s => mem_get_scheduled db now w g s,
    fun _ _ _ _ => List.sorted_insertionSort schedule_le _,
    by decide, by decide⟩

/-- Claim C5, witness: the example schedule with start 1040 and padding 60
is returned by the query at now 1000, window 60, grace 300. -/
theorem get_due_characterization_amended_witness :
    s_1040 ∈ get_scheduled_recordings db_1040 1000 60 300 :=
  (get_due_characterization_amended.1 db_1040 1000 60 300 s_1040).mpr
    (by decide)

/-- Claim C6: check_conflicts returns exactly the schedules on the same
source with status Scheduled or Recording satisfying the interval test
NOT (candidate.end <= start OR candidate.start >= end); the stored interval
100 to 200 conflicts with the query 150 to 250 and does not conflict with
the adjacent query 200 to 300. -/
theorem check_conflicts_characterization :
    (∀ (db : DvrDb) (sid : String) (a b : Int) (s : Schedule),
      s ∈ (check_conflicts db sid a b).1 ↔
        s ∈ db.schedules ∧ s.source_id = sid ∧
          (s.status = ScheduleStatus.scheduled ∨
            s.status = ScheduleStatus.recording) ∧
          ¬(s.scheduled_end ≤ a ∨ s.scheduled_start ≥ b)) ∧
    s_overlap ∈ (check_conflicts db_conf src1 150 250).1 ∧
    (check_conflicts db_conf src1 200 300).1 = [] := by
  refine ⟨?_, by decide, by decide⟩
  intro db sid a b s
  simp [check_conflicts, List.mem_filter, and_assoc]

/-- Claim C6, witness: the membership of the overlapping example unfolds to
the conjunction of the filter conditions. -/
theorem check_conflicts_characterization_witness :
    s_overlap ∈ db_conf.schedules ∧ s_overlap.source_id = src1 ∧
    (s_overlap.status = ScheduleStatus.scheduled ∨
      s_overlap.status = ScheduleStatus.recording) ∧
    ¬(s_overlap.scheduled_end ≤ 150 ∨ s_overlap.scheduled_start ≥ 250) :=
  (check_conflicts_characterization.1 db_conf src1 150 250 s_overlap).mp
    (by decide)

/-- Claim C9: the supervisor computes the capture duration as the padded end
minus the padded start and passes exactly that value after the -t flag of
the capture command; for a schedule from T to T + 60 with paddings 60 and
300 the duration is 420 seconds. -/
theorem capture_duration_formula :
    ∀ (s : Schedule) (is_hls : Bool) (stream_url output_path : String),
      (capture_duration_secs s =
        (s.scheduled_end + s.end_padding_sec) -
          (s.scheduled_start - s.start_padding_sec)) ∧
      (∃ l1 l2, record_ffmpeg_args s is_hls stream_url output_path =
        l1 ++ ["-t", toString (capture_duration_secs s)] ++ l2) ∧
      (∀ t : Int, capture_duration_secs (c9_sched t) = 420) := by
  intro s hls url out
  refine ⟨rfl, ?_, ?_⟩
  · cases hls
    · exact ⟨["-timeout", "30000000", "-i", url, "-c", "copy"],
        ["-fflags", "+flush_packets", "-y", out], rfl⟩
    · exact ⟨["-live_start_index", "-1", "-http_persistent", "0",
          "-timeout", "30000000", "-i", url, "-c", "copy"],
        ["-fflags", "+flush_packets", "-y", out], rfl⟩
  · intro t
    simp only [capture_duration_secs, c9_sched, mk_schedule,
      Schedule.actual_start, Schedule.actual_end]
    omega

/-- Claim C10: every schedule returned by get_scheduled_recordings has
status Scheduled; the WHERE clause applies the status filter to both the
upcoming-window branch and the missed-grace branch. -/
theorem get_due_only_scheduled :
    ∀ (db : DvrDb) (now w g : Int) (s : Schedule),
      s ∈ get_scheduled_recordings db now w g →
      s.status = ScheduleStatus.scheduled :=
  fun db now w g s hs => ((mem_get_scheduled db now w g s).mp hs).2.1

/-- Claim C10, witness: the returned example schedule has status
Scheduled. -/
theorem get_due_only_scheduled_witness :
    s_1040.status = ScheduleStatus.scheduled :=
  get_due_only_scheduled db_1040 1000 60 300 s_1040 (by decide)

/-- Claim C7, counterexample: after a spawn failure the schedule is marked
Failed, but one RecordingEntry row survives in the store, still in status
Recording - contradicting the claim that no artifacts survive. -/
theorem spawn_failure_artifact_survives :
    (start_recording_spawn_fail db_c7 s_c7 c7_file c7_file 950).recordings.map
        Recording.status = [RecordingStatus.recording] ∧
    (start_recording_spawn_fail db_c7 s_c7 c7_file c7_file 950).schedules.map
        Schedule.status = [ScheduleStatus.failed] := by
  decide

/-- Claim C7, amended: on a spawn failure the schedule is marked Failed
immediately, but the RecordingEntry persisted before the spawn attempt
survives, still in status Recording, pointing at the schedule and the
output path (the source persists the row before spawning precisely so that
a failed attempt stays traceable). -/
theorem spawn_failure_marks_failed_amended :
    ∀ (db : DvrDb) (sched : Schedule) (fp fn : String) (now : Int),
      (∀ s ∈ (start_recording_spawn_fail db sched fp fn now).schedules,
        s.id = sched.id → s.status = ScheduleStatus.failed) ∧
      (∃ r ∈ (start_recording_spawn_fail db sched fp fn now).recordings,
        r.schedule_id = some sched.id ∧
        r.status = RecordingStatus.recording ∧ r.file_path = fp) := by
  intro db sched fp fn now
  constructor
  · intro s hs hid
    exact update_status_id_mem _ sched.id ScheduleStatus.failed now s hs hid
  · refine ⟨spawn_fail_row db sched fp fn now, ?_, rfl, rfl, rfl⟩
    exact List.mem_append_right _ (List.mem_singleton_self _)

/-- Claim C7, witness: in the concrete spawn-failure run the schedule row
ends in status Failed. -/
theorem spawn_failure_marks_failed_amended_witness :
    c7_after.status = ScheduleStatus.failed :=
  (spawn_failure_marks_failed_amended db_c7 s_c7 c7_file c7_file 950).1
    c7_after (by decide) (by decide)

lemma map_get_upd_entry (f : RecordingHandle → RecordingHandle)
    (schedule_id : Int) :
    ∀ m : ActiveMap, map_get (upd_entry f schedule_id m) schedule_id =
      (map_get m schedule_id).map f := by
  intro m
  induction m with
  | nil => rfl
  | cons p rest ih =>
    by_cases hk : p.1 = schedule_id
    · simp [upd_entry, map_get, hk]
    · simp only [upd_entry, List.map] at ih ⊢
      simp [map_get, hk, ih]

lemma upd_upd (f g : RecordingHandle → RecordingHandle) (schedule_id : Int) :
    ∀ m : ActiveMap, upd_entry f schedule_id (upd_entry g schedule_id m) =
      upd_entry (fun h => f (g h)) schedule_id m := by
  intro m
  induction m with
  | nil => rfl
  | cons p rest ih =>
    simp only [upd_entry, List.map] at ih ⊢
    by_cases hk : p.1 = schedule_id <;> simp [hk, ih]

lemma scrub_idem : (fun h => scrub (scrub h)) = scrub := by
  funext h
  cases h
  rfl

lemma stop_recording_found (m : ActiveMap) (id : Int) (h : RecordingHandle)
    (hm : map_get m id = some h) :
    stop_recording m id =
      Except.ok (upd_entry scrub id m,
        match h.process with | some _ => 1 | none => 0) := by
  have h1 : map_get (upd_entry with_cancel id m) id = some (with_cancel h) := by
    rw [map_get_upd_entry, hm]
    rfl
  simp only [stop_recording, hm, send_cancel, take_process, h1]
  rw [upd_upd]
  rfl

lemma map_get_scrub_found (m : ActiveMap) (id : Int) (h : RecordingHandle)
    (hm : map_get m id = some h) :
    map_get (upd_entry scrub id m) id = some (scrub h) := by
  rw [map_get_upd_entry, hm]
  rfl

/-- Claim C8: stop_recording always returns success; on a map without the
schedule id (an already-removed or never-registered job) it is a pure no-op;
and however a first call ends, it kills at most once and an immediately
repeated call changes nothing and kills nothing - so there is no double-kill
fault on the process handle. -/
theorem stop_recording_idempotent :
    ∀ (m : ActiveMap) (schedule_id : Int),
      (stop_recording m schedule_id).isOk = true ∧
      (map_get m schedule_id = none →
        stop_recording m schedule_id = Except.ok (m, 0)) ∧
      (∀ m1 k1, stop_recording m schedule_id = Except.ok (m1, k1) →
        k1 ≤ 1 ∧ stop_recording m1 schedule_id = Except.ok (m1, 0)) := by
  intro m id
  rcases hm : map_get m id with _ | h
  · refine ⟨?_, ?_, ?_⟩
    · simp only [stop_recording, hm]
      rfl
    · intro _
      simp only [stop_recording, hm]
    · intro m1 k1 heq
      simp only [stop_recording, hm, Except.ok.injEq, Prod.mk.injEq] at heq
      obtain ⟨rfl, rfl⟩ := heq
      refine ⟨Nat.zero_le 1, ?_⟩
      simp only [stop_recording, hm]
  · have hfound := stop_recording_found m id h hm
    have hA := map_get_scrub_found m id h hm
    have hsecond : stop_recording (upd_entry scrub id m) id =
        Except.ok (upd_entry scrub id m, 0) := by
      rw [stop_recording_found (upd_entry scrub id m) id (scrub h) hA,
        upd_upd, scrub_idem]
      rfl
    refine ⟨?_, ?_, ?_⟩
    · rw [hfound]
      rfl
    · intro hnone
      simp at hnone
    · intro m1 k1 heq
      rw [hfound] at heq
      simp only [Except.ok.injEq, Prod.mk.injEq] at heq
      obtain ⟨rfl, rfl⟩ := heq
      exact ⟨by cases h.process <;> simp, hsecond⟩

/-- Claim C8, witness: stopping the concrete one-job map a second time is a
no-op returning success with zero kills. -/
theorem stop_recording_idempotent_witness :
    stop_recording map_stopped 5 = Except.ok (map_stopped, 0) :=
  ((stop_recording_idempotent map_run 5).2.2 map_stopped 1 (by rfl)).2

end Ynotv

